import Mathlib

/-!
Shallow embedding of the audio-command surface of `src/cogs/audio.py`
(the `AudioBase` / `AudioCommandMixin` cog) and proofs of the spec claims
about it.

The cog's mutable state is three per-process containers initialised in
`AudioBase.__init__`:
  * `connecting_guilds : List[int]` - guilds whose voice session is connected;
  * `locks : Dict[int, asyncio.Lock]` - a `defaultdict` allocating one lock
    per guild id on first access (modelled as an association list plus a
    fresh-id counter);
  * `recording_guilds : List[int]` - guilds with an in-flight replay/record.
The `TextToSpeechCog`'s `reading_guilds` keys, consulted by the `audio`
connect command, are carried as a fourth (externally owned, never mutated
here) component.

Each command is translated into a pure function from this state (plus the
inputs the handler reads) to the new state and a typed outcome mirroring the
handler's `ctx.error` / `ctx.success` / dispatch / bare-return exits.
-/

namespace MiniMaid

/-- The cog state: `connecting_guilds`, the `locks` defaultdict (association
list of guild id to allocated lock id, plus the next fresh lock id), and
`recording_guilds`, as initialised in `AudioBase.__init__`; `ttsReadingGuilds`
mirrors the `TextToSpeechCog.reading_guilds` keys read by the connect command. -/
structure CogState where
  connecting_guilds : List Nat
  locks : List (Nat × Nat)
  nextLockId : Nat
  recording_guilds : List Nat
  ttsReadingGuilds : List Nat
deriving DecidableEq, Repr

/-- Constructor `AudioBase.__init__`: all containers start empty. -/
def AudioBase_init (tts : List Nat) : CogState :=
  ⟨[], [], 0, [], tts⟩

/-- Outcome of the `audio` (connect) command. -/
inductive ConnectResult where
  | errorTTSConflict
  | errorAlreadyConnected
  | joinFailed
  | successConnected
deriving DecidableEq, Repr

/-- Timeout `timeout=30.0` passed to `voice.channel.connect` in the `audio` command. -/
def connectTimeoutSeconds : Nat := 30

/-- The `audio` connect command (src/cogs/audio.py lines 58-71): error if the
text-to-speech cog is reading in this guild; error if the guild is already in
`connecting_guilds`; otherwise attempt the transport join (timeout 30 s,
outcome abstracted as `joinSucceeds`) and only on success append the guild to
`connecting_guilds`. -/
def audio (s : CogState) (g : Nat) (joinSucceeds : Bool) : CogState × ConnectResult :=
  if g ∈ s.ttsReadingGuilds then (s, .errorTTSConflict)
  else if g ∈ s.connecting_guilds then (s, .errorAlreadyConnected)
  else if joinSucceeds then
    ({ s with connecting_guilds := s.connecting_guilds ++ [g] }, .successConnected)
  else (s, .joinFailed)

/-- The cog state observable at the moment the transport join is awaited:
the command mutates nothing between its membership checks and the
`await ...connect(timeout=30.0)` call, so in the proceeding branch it is the
unchanged entry state (`none` when a check fails and no join is attempted). -/
def audioJoinAttemptState (s : CogState) (g : Nat) : Option CogState :=
  if g ∈ s.ttsReadingGuilds then none
  else if g ∈ s.connecting_guilds then none
  else some s

/-- Transport-level calls issued by `disconnect`. -/
inductive TransportAction where
  | stopPlayback
  | forceDisconnect
deriving DecidableEq, Repr

/-- Outcome of the `disconnect` command. -/
inductive DisconnectResult where
  | errorNotConnected
  | successDisconnected
deriving DecidableEq, Repr

/-- The `disconnect` command (lines 73-86): error if the guild is not in
`connecting_guilds` (state untouched, no transport call); otherwise
`voice_client.stop()`, `voice_client.disconnect(force=True)`, and removal of
the guild from `connecting_guilds` (`list.remove` = first-occurrence erase). -/
def disconnect (s : CogState) (g : Nat) : CogState × List TransportAction × DisconnectResult :=
  if g ∉ s.connecting_guilds then (s, [], .errorNotConnected)
  else
    ({ s with connecting_guilds := s.connecting_guilds.erase g },
     [.stopPlayback, .forceDisconnect], .successDisconnected)

/-- A finalized clip delivered as a wav file (opaque byte payload). -/
def AudioClip := List Nat
deriving DecidableEq, Repr

/-- Outcome of the begin phase shared by `record_start` and `replay_audio`:
both handlers first check `connecting_guilds`, then `recording_guilds`
(with the same error messages), then append the guild to `recording_guilds`. -/
inductive RecordBeginResult where
  | errorNotConnected
  | errorRecordingInProgress
  | started
deriving DecidableEq, Repr

/-- Handler `record_start` up to the `recording_guilds.append` (lines 319-329): error
if not connected; error `すでに録音を開始しています` if the guild is already in
`recording_guilds`; otherwise register the guild as recording. -/
def record_start_begin (s : CogState) (g : Nat) : CogState × RecordBeginResult :=
  if g ∉ s.connecting_guilds then (s, .errorNotConnected)
  else if g ∈ s.recording_guilds then (s, .errorRecordingInProgress)
  else ({ s with recording_guilds := s.recording_guilds ++ [g] }, .started)

/-- Handler `replay_audio` up to the `recording_guilds.append` (lines 269-277): the
same checks and registration as `record_start_begin`. -/
def replay_begin (s : CogState) (g : Nat) : CogState × RecordBeginResult :=
  if g ∉ s.connecting_guilds then (s, .errorNotConnected)
  else if g ∈ s.recording_guilds then (s, .errorRecordingInProgress)
  else ({ s with recording_guilds := s.recording_guilds ++ [g] }, .started)

/-- Outcome of the finish phase of `record_start` / `replay_audio`. -/
inductive RecordOutcome where
  | errorRecordFailed
  | clipDelivered (clip : AudioClip)
deriving DecidableEq, Repr

/-- Handler `record_start` after `await ctx.voice_client.record()` resolves (lines
330-344): a `None` file yields the error message and no clip, a file is sent
as a wav attachment; the `finally` block removes the guild from
`recording_guilds` on every path. -/
def record_start_finish (s : CogState) (g : Nat) (file : Option AudioClip) :
    CogState × RecordOutcome :=
  match file with
  | none => ({ s with recording_guilds := s.recording_guilds.erase g }, .errorRecordFailed)
  | some c => ({ s with recording_guilds := s.recording_guilds.erase g }, .clipDelivered c)

/-- Handler `replay_audio` after `await ctx.voice_client.replay()` resolves (lines
278-291): same shape as `record_start_finish`. -/
def replay_finish (s : CogState) (g : Nat) (file : Option AudioClip) :
    CogState × RecordOutcome :=
  match file with
  | none => ({ s with recording_guilds := s.recording_guilds.erase g }, .errorRecordFailed)
  | some c => ({ s with recording_guilds := s.recording_guilds.erase g }, .clipDelivered c)

/-- Modelled from the spec: the result of the pending
`MiniMaidVoiceClient.record()` call (in `lib/discord/voice_client.py`, which
is not under `src/`) when `disconnect` tears the voice connection down
mid-capture. Per the spec's cancellation clause, `disconnect` "must cancel any
in-flight Recording (transition it to `failed` ...); no clip is delivered for
a Recording cancelled this way", so the call resolves with no file. -/
def recordResultAfterDisconnect : Option AudioClip := none

/-- Constant `FILESIZE_LIMIT = 25 * 10 ** 6` (line 32). -/
def FILESIZE_LIMIT : Nat := 25 * 10 ^ 6

/-- Python strings are embedded as character lists (so that all string
operations compute inside the kernel). -/
abbrev Str := List Char

/-- A Discord attachment as read by the handlers: its `filename` and `size`. -/
structure Attachment where
  filename : Str
  size : Nat
deriving DecidableEq, Repr

/-- An `AudioTag` database row (guild id, tag name, stored audio url). -/
structure AudioTag where
  guild_id : Nat
  name : Str
  audio_url : Str
deriving DecidableEq, Repr

/-- Wrapper `TagAttachment` (lines 35-45): wraps an `AudioTag`; `filetype` is the last
dot-separated component of `audio_url`, `filename` is `"{name}.{filetype}"`. -/
structure TagAttachment where
  tag : AudioTag
deriving DecidableEq, Repr

/-- Field `self.filetype = audio_tag.audio_url.split(".")[-1]`. -/
def TagAttachment.filetype (t : TagAttachment) : Str :=
  (t.tag.audio_url.splitOn '.').getLastD []

/-- Field `self.filename = f"\x7bself.tag.name\x7d.\x7bself.filetype\x7d"`. -/
def TagAttachment.filename (t : TagAttachment) : Str :=
  t.tag.name ++ ".".toList ++ t.filetype

/-- Python `str.endswith(suffix)`. -/
def strEndsWith (s suffix : Str) : Bool :=
  suffix.isSuffixOf s

/-- Check `attachment.filename.endswith((".mp3", ".wav"))` (lines 105, 118). -/
def isSupportedExtension (name : Str) : Bool :=
  strEndsWith name ".mp3".toList || strEndsWith name ".wav".toList

/-- The file object `play_audio_file` hands to `engine.create_source`. -/
inductive PlayFile where
  | fromAttachment (a : Attachment)
  | fromTag (t : TagAttachment)
deriving DecidableEq, Repr

/-- The display filename of a resolved play file (`file.filename`). -/
def PlayFile.filename : PlayFile → Str
  | .fromAttachment a => a.filename
  | .fromTag t => t.filename

/-- The byte length the source resolves to: an attachment carries its `size`;
a tag's bytes are fetched from its url (`tagFetch`, `none` = failed fetch). -/
def PlayFile.resolvedBytes : PlayFile → Option Nat → Option Nat
  | .fromAttachment a, _ => some a.size
  | .fromTag _, fetch => fetch

/-- The inputs `play_audio_file` inspects: the invoking message's attachments,
the optional `message` argument (resolved to that message's attachments), and
the optional `tag` argument (resolved to the database lookup result). -/
structure PlayRequest where
  ctxAttachments : List Attachment
  message : Option (List Attachment)
  tag : Option (Option AudioTag)
deriving DecidableEq, Repr

/-- The spec's PlaybackSource failure kinds, raised by the (spec-modelled)
`AudioEngine.create_source`. -/
inductive SourceError where
  | unsupportedFormat
  | sizeLimitExceeded
  | fetchFailed
deriving DecidableEq, Repr

/-- Modelled from the spec: `AudioEngine.create_source` (`lib/audio.py`, not
under `src/`), the PlaybackSource constructor of spec §4.1: "file
extension/content must be one of the supported audio containers (mp3, wav)";
"source must resolve to a byte stream no larger than a configured size
ceiling (25 MB)"; failures `UnsupportedFormat` if the extension is
unrecognized, `FetchFailed` if a remote fetch fails, `SizeLimitExceeded` if
the resolved byte length exceeds the ceiling. On success it returns the
opaque streaming handle with its display filename. -/
def create_source (filename : Str) (bytes : Option Nat) : Except SourceError Str :=
  if isSupportedExtension filename then
    match bytes with
    | none => .error .fetchFailed
    | some n => if n > FILESIZE_LIMIT then .error .sizeLimitExceeded else .ok filename
  else .error .unsupportedFormat

/-- Outcome of the `play_audio_file` command: the `ctx.error` exits of the
handler, the (spec-modelled) engine failures, the bare `return` taken when
`ctx.guild.voice_client is None` after acquiring the lock, and playback. -/
inductive PlayOutcome where
  | errorNotConnected
  | errorSizeLimit
  | errorBadExtension
  | errorNoAttachmentOnMessage
  | errorNoSuchTag
  | errorNoFileGiven
  | engineFailure (e : SourceError)
  | silentReturn
  | played (filename : Str)
deriving DecidableEq, Repr

/-- Source resolution of `play_audio_file` (lines 103-143): first the
invoking message's attachments (extension then size check), else the
`message` argument's attachments (same checks, or an error if it has none),
else the `tag` lookup (wrapped as a `TagAttachment` with no checks), else an
error asking for a file. -/
def resolvePlayFile (req : PlayRequest) : Except PlayOutcome PlayFile :=
  match req.ctxAttachments with
  | a :: _ =>
    if isSupportedExtension a.filename then
      if a.size > FILESIZE_LIMIT then .error .errorSizeLimit
      else .ok (.fromAttachment a)
    else .error .errorBadExtension
  | [] =>
    match req.message with
    | some atts =>
      match atts with
      | a :: _ =>
        if isSupportedExtension a.filename then
          if a.size > FILESIZE_LIMIT then .error .errorSizeLimit
          else .ok (.fromAttachment a)
        else .error .errorBadExtension
      | [] => .error .errorNoAttachmentOnMessage
    | none =>
      match req.tag with
      | some lookup =>
        match lookup with
        | some t => .ok (.fromTag ⟨t⟩)
        | none => .error .errorNoSuchTag
      | none => .error .errorNoFileGiven

/-- The `play_audio_file` command (lines 94-163): error if the guild is not
connected; resolve the source (`resolvePlayFile`); build the source via
`engine.create_source`; then, under the guild's lock, bare-`return` if
`ctx.guild.voice_client is None`, otherwise announce and play the file. -/
def play_audio_file (s : CogState) (g : Nat) (req : PlayRequest)
    (tagFetch : Option Nat) (voiceClientPresent : Bool) : PlayOutcome :=
  if g ∉ s.connecting_guilds then .errorNotConnected
  else
    match resolvePlayFile req with
    | .error e => e
    | .ok file =>
      match create_source file.filename (file.resolvedBytes tagFetch) with
      | .error e => .engineFailure e
      | .ok _ =>
        if voiceClientPresent then .played file.filename else .silentReturn

/-- Classifies a `PlayOutcome` as the spec's `UnsupportedFormat` failure:
either the handler's own extension error or the engine's. -/
def PlayOutcome.isUnsupportedFormat : PlayOutcome → Bool
  | .errorBadExtension => true
  | .engineFailure .unsupportedFormat => true
  | _ => false

/-- Classifies a `PlayOutcome` as the spec's `SizeLimitExceeded` failure:
either the handler's own size error or the engine's. -/
def PlayOutcome.isSizeLimitExceeded : PlayOutcome → Bool
  | .errorSizeLimit => true
  | .engineFailure .sizeLimitExceeded => true
  | _ => false

/-- True when the outcome is a playback (success payload). -/
def PlayOutcome.isSuccess : PlayOutcome → Bool
  | .played _ => true
  | _ => false

/-- True when the outcome is a named failure surfaced to the caller (every
outcome except playback and the bare `return`). -/
def PlayOutcome.isFailureSurfaced : PlayOutcome → Bool
  | .played _ => false
  | .silentReturn => false
  | _ => true

/-- Outcome of the `record_stop` command. -/
inductive StopResult where
  | errorNotConnected
  | dispatchedStop
deriving DecidableEq, Repr

/-- The `record_stop` command (lines 346-354): error if the guild is not in
`connecting_guilds`; otherwise `self.bot.dispatch("record_stop")` and return.
The handler never consults `recording_guilds` and mutates nothing. -/
def record_stop (s : CogState) (g : Nat) : CogState × StopResult :=
  if g ∉ s.connecting_guilds then (s, .errorNotConnected)
  else (s, .dispatchedStop)

/-!
Per-guild playback lock. `self.locks` is a `defaultdict(asyncio.Lock)`:
indexing with a guild id returns that guild's lock, allocating a fresh one
on first access. `play_audio_file` wraps its playback section in
`async with self.locks[ctx.guild.id]`, whose semantics is: suspend until the
lock is free, hold it for the body, release it afterwards — acquisition
never produces an error. The lock table is modelled as an association list
with a fresh-id counter, and the `async with` discipline as a small-step
relation over the set of play invocations of a process.
-/

/-- Lookup `self.locks[guild_id]` on the `defaultdict`: a hit returns the stored
lock id, a miss stores and returns a fresh one, bumping the counter. -/
def getLock (table : List (Nat × Nat)) (counter : Nat) (g : Nat) :
    List (Nat × Nat) × Nat × Nat :=
  match table.find? (fun p => p.1 == g) with
  | some p => (table, counter, p.2)
  | none => (table ++ [(g, counter)], counter + 1, counter)

/-- Where a play invocation stands relative to its guild's lock. -/
inductive PlayPhase where
  | waitingLock
  | playing
  | phaseDone
deriving DecidableEq, Repr

/-- One in-flight `play_audio_file` invocation: its guild and lock phase. -/
structure PlayTask where
  guild : Nat
  phase : PlayPhase
deriving DecidableEq, Repr

/-- Replace the phase of the `i`-th task. -/
def updTask : List PlayTask → Nat → PlayPhase → List PlayTask
  | [], _, _ => []
  | t :: ts, 0, p => ⟨t.guild, p⟩ :: ts
  | t :: ts, i + 1, p => t :: updTask ts i p

/-- Interleaving semantics of `async with self.locks[g]`: a waiting task may
enter its playback section only when no task of the same guild is inside
(the lock is free), and a playing task may leave (releasing the lock).
Acquisition has no failing transition: a blocked task simply stays
`waitingLock`. -/
inductive PlayStep : List PlayTask → List PlayTask → Prop
  | acquire (ts : List PlayTask) (i : Nat) (hi : i < ts.length)
      (hw : (ts.get ⟨i, hi⟩).phase = .waitingLock)
      (hfree : ∀ t ∈ ts, t.guild = (ts.get ⟨i, hi⟩).guild → t.phase ≠ .playing) :
      PlayStep ts (updTask ts i .playing)
  | release (ts : List PlayTask) (i : Nat) (hi : i < ts.length)
      (hp : (ts.get ⟨i, hi⟩).phase = .playing) :
      PlayStep ts (updTask ts i .phaseDone)

/-- Any interleaving of lock acquisitions and releases. -/
def PlayReachable : List PlayTask → List PlayTask → Prop :=
  Relation.ReflTransGen PlayStep

/-- No two distinct play invocations of the same guild are inside their
playback sections at once. -/
def PlayMutex (ts : List PlayTask) : Prop :=
  ∀ (i j : Nat) (hi : i < ts.length) (hj : j < ts.length), i ≠ j →
    (ts.get ⟨i, hi⟩).guild = (ts.get ⟨j, hj⟩).guild →
    ¬((ts.get ⟨i, hi⟩).phase = .playing ∧ (ts.get ⟨j, hj⟩).phase = .playing)


/-!
Sequential traces of the coordinator operations, for the registry
invariants. Replay and record are split into their begin phase (the checks
and the `recording_guilds.append`) and their finish phase (the `finally`
removal once the awaited capture resolves), so that states with an
in-flight recording are visible in the trace.
-/

/-- One coordinator operation of a trace. -/
inductive Op where
  | opConnect (g : Nat) (joinOk : Bool)
  | opDisconnect (g : Nat)
  | opReplayBegin (g : Nat)
  | opReplayFinish (g : Nat) (file : Option AudioClip)
  | opRecordBegin (g : Nat)
  | opRecordFinish (g : Nat) (file : Option AudioClip)
  | opRecordStop (g : Nat)
deriving DecidableEq, Repr

/-- State effect of one operation (outcomes discarded). -/
def applyOp (s : CogState) : Op → CogState
  | .opConnect g j => (audio s g j).1
  | .opDisconnect g => (disconnect s g).1
  | .opReplayBegin g => (replay_begin s g).1
  | .opReplayFinish g f => (replay_finish s g f).1
  | .opRecordBegin g => (record_start_begin s g).1
  | .opRecordFinish g f => (record_start_finish s g f).1
  | .opRecordStop g => (record_stop s g).1

/-- Registry invariant: no guild occurs twice in `connecting_guilds` or in
`recording_guilds`. -/
def CogInv (s : CogState) : Prop :=
  s.connecting_guilds.Nodup ∧ s.recording_guilds.Nodup

/-!
Concrete states and inputs used to instantiate the theorems.
-/

/-- Guild 7 connected, no recording in flight, lock table empty. -/
def stateConn7 : CogState := ⟨[7], [], 0, [], []⟩

/-- Guild 7 connected with a recording in flight. -/
def stateConnRec7 : CogState := ⟨[7], [], 0, [7], []⟩

/-- A stored tag whose url ends in `.ogg` (creatable through
`voice_tag_add`'s url path, which checks size but not extension). -/
def oggTag : AudioTag := ⟨7, "evil".toList, "https://cdn.example.com/files/evil.ogg".toList⟩

/-- A play request naming only the `oggTag` tag. -/
def oggTagRequest : PlayRequest := ⟨[], none, some (some oggTag)⟩

/-- A play request with a small mp3 attachment on the invoking message. -/
def mp3Request : PlayRequest := ⟨[⟨"song.mp3".toList, 1000⟩], none, none⟩

/-- Two play invocations for guild 7, both waiting for the guild's lock. -/
def twoWaiting7 : List PlayTask := [⟨7, .waitingLock⟩, ⟨7, .waitingLock⟩]

/-- The first invocation has acquired the lock and is playing. -/
def oneAcquired7 : List PlayTask := [⟨7, .playing⟩, ⟨7, .waitingLock⟩]

/-!
Helper lemmas.
-/

theorem find?_append_of_none {α : Type} (p : α → Bool) (l1 l2 : List α)
    (h : l1.find? p = none) : (l1 ++ l2).find? p = l2.find? p := by
  rw [List.find?_append, h]
  rfl

theorem resolvePlayFile_error_cases (req : PlayRequest) (e : PlayOutcome)
    (h : resolvePlayFile req = .error e) :
    e = .errorSizeLimit ∨ e = .errorBadExtension ∨ e = .errorNoAttachmentOnMessage ∨
      e = .errorNoSuchTag ∨ e = .errorNoFileGiven := by
  obtain ⟨cas, msg, tg⟩ := req
  cases cas with
  | cons a rest =>
    simp only [resolvePlayFile] at h
    split_ifs at h <;> simp_all
  | nil =>
    cases msg with
    | some atts =>
      cases atts with
      | cons a rest =>
        simp only [resolvePlayFile] at h
        split_ifs at h <;> simp_all
      | nil => simp only [resolvePlayFile] at h; simp_all
    | none =>
      cases tg with
      | some lookup =>
        cases lookup <;> (simp only [resolvePlayFile] at h; simp_all)
      | none => simp only [resolvePlayFile] at h; simp_all

theorem create_source_ok_inv (filename : Str) (bytes : Option Nat) (v : Str)
    (h : create_source filename bytes = .ok v) :
    isSupportedExtension filename = true ∧ v = filename ∧
      ∃ n, bytes = some n ∧ n ≤ FILESIZE_LIMIT := by
  unfold create_source at h
  by_cases h1 : isSupportedExtension filename
  · rw [if_pos h1] at h
    cases bytes with
    | none => exact absurd h (by simp)
    | some n =>
      have h3 : (if n > FILESIZE_LIMIT then
          (Except.error SourceError.sizeLimitExceeded : Except SourceError Str)
          else Except.ok filename) = Except.ok v := h
      by_cases h2 : n > FILESIZE_LIMIT
      · rw [if_pos h2] at h3
        exact absurd h3 (by simp)
      · rw [if_neg h2] at h3
        simp only [Except.ok.injEq] at h3
        exact ⟨by simpa using h1, h3.symm, n, rfl, by omega⟩
  · rw [if_neg h1] at h
    exact absurd h (by simp)

theorem playOutcome_classify (o : PlayOutcome) (h : o ≠ .silentReturn) :
    o.isSuccess = true ∨ o.isFailureSurfaced = true := by
  cases o <;>
    simp_all [PlayOutcome.isSuccess, PlayOutcome.isFailureSurfaced]

theorem play_ne_silent_of_vcp (s : CogState) (g : Nat) (req : PlayRequest)
    (tagFetch : Option Nat) :
    play_audio_file s g req tagFetch true ≠ .silentReturn := by
  unfold play_audio_file
  by_cases h1 : g ∉ s.connecting_guilds
  · rw [if_pos h1]
    simp
  · rw [if_neg h1]
    cases hres : resolvePlayFile req with
    | error e =>
      simp only [hres]
      rcases resolvePlayFile_error_cases req e hres with h | h | h | h | h <;>
        simp [h]
    | ok file =>
      simp only [hres]
      cases hcs : create_source file.filename (file.resolvedBytes tagFetch) with
      | error e2 => simp [hcs]
      | ok v => simp [hcs]

theorem recording_unchanged_by_other_ops (s : CogState) (g' : Nat) (j : Bool) :
    (audio s g' j).1.recording_guilds = s.recording_guilds ∧
    (disconnect s g').1.recording_guilds = s.recording_guilds ∧
    (record_stop s g').1.recording_guilds = s.recording_guilds := by
  unfold audio disconnect record_stop
  refine ⟨?_, ?_, ?_⟩ <;> (split_ifs <;> rfl)

theorem recording_mem_after_begin (s : CogState) (g' h : Nat)
    (hm : h ∈ s.recording_guilds) :
    h ∈ (replay_begin s g').1.recording_guilds ∧
      h ∈ (record_start_begin s g').1.recording_guilds := by
  unfold replay_begin record_start_begin
  constructor <;> (split_ifs <;> simp [hm])

theorem finish_recording_erase (s : CogState) (g' : Nat) (f : Option AudioClip) :
    (replay_finish s g' f).1.recording_guilds = s.recording_guilds.erase g' ∧
      (record_start_finish s g' f).1.recording_guilds = s.recording_guilds.erase g' := by
  cases f <;> exact ⟨rfl, rfl⟩

theorem oneAcquired7_reachable : PlayReachable twoWaiting7 oneAcquired7 :=
  Relation.ReflTransGen.single
    (PlayStep.acquire twoWaiting7 0 (by decide) (by decide) (by decide))

theorem updTask_length (ts : List PlayTask) (i : Nat) (p : PlayPhase) :
    (updTask ts i p).length = ts.length := by
  induction ts generalizing i with
  | nil => rfl
  | cons t ts ih =>
    cases i with
    | zero => rfl
    | succ n => simp [updTask, ih]

theorem updTask_get (ts : List PlayTask) (i : Nat) (p : PlayPhase) (j : Nat)
    (hj : j < ts.length) (hj' : j < (updTask ts i p).length) :
    (updTask ts i p).get ⟨j, hj'⟩ =
      if j = i then ⟨(ts.get ⟨j, hj⟩).guild, p⟩ else ts.get ⟨j, hj⟩ := by
  induction ts generalizing i j with
  | nil => cases hj
  | cons t ts ih =>
    cases i with
    | zero =>
      cases j with
      | zero => simp [updTask]
      | succ m => simp [updTask]
    | succ n =>
      cases j with
      | zero => simp [updTask]
      | succ m =>
        have hj2 : m < ts.length := Nat.lt_of_succ_lt_succ hj
        have hj2' : m < (updTask ts n p).length := by
          rw [updTask_length]; exact hj2
        simp only [updTask, List.get_cons_succ]
        rw [ih n m hj2 hj2']
        by_cases h : m = n <;> simp [h]

theorem playStep_preserves_mutex {ts ts' : List PlayTask}
    (hstep : PlayStep ts ts') (hm : PlayMutex ts) : PlayMutex ts' := by
  cases hstep with
  | acquire i hi hw hfree =>
    intro a b ha hb hne hg hp
    obtain ⟨hpa, hpb⟩ := hp
    have ha' : a < ts.length := by rwa [updTask_length] at ha
    have hb' : b < ts.length := by rwa [updTask_length] at hb
    rw [updTask_get ts i _ a ha'] at hpa hg
    rw [updTask_get ts i _ b hb'] at hpb hg
    by_cases hai : a = i <;> by_cases hbi : b = i
    · exact hne (hai.trans hbi.symm)
    · simp only [hai, if_pos rfl, if_neg hbi] at hpb hg
      subst hai
      exact hfree (ts.get ⟨b, hb'⟩) (List.get_mem ts b hb') hg.symm hpb
    · simp only [hbi, if_neg hai, if_pos rfl] at hpa hg
      subst hbi
      exact hfree (ts.get ⟨a, ha'⟩) (List.get_mem ts a ha') hg hpa
    · simp only [if_neg hai, if_neg hbi] at hpa hpb hg
      exact hm a b ha' hb' hne hg ⟨hpa, hpb⟩
  | release i hi hp =>
    intro a b ha hb hne hg hcon
    obtain ⟨hpa, hpb⟩ := hcon
    have ha' : a < ts.length := by rwa [updTask_length] at ha
    have hb' : b < ts.length := by rwa [updTask_length] at hb
    rw [updTask_get ts i _ a ha'] at hpa hg
    rw [updTask_get ts i _ b hb'] at hpb hg
    by_cases hai : a = i <;> by_cases hbi : b = i
    · exact hne (hai.trans hbi.symm)
    · simp [hai] at hpa
    · simp [hbi] at hpb
    · simp only [if_neg hai, if_neg hbi] at hpa hpb hg
      exact hm a b ha' hb' hne hg ⟨hpa, hpb⟩

theorem nodup_append_singleton {l : List Nat} {g : Nat} (h : l.Nodup) (hg : g ∉ l) :
    (l ++ [g]).Nodup := by
  simp [List.nodup_append, h, hg]

theorem applyOp_preserves_inv (s : CogState) (op : Op) (h : CogInv s) :
    CogInv (applyOp s op) := by
  obtain ⟨hc, hr⟩ := h
  cases op with
  | opConnect g j =>
    simp only [applyOp, audio]
    split_ifs
    all_goals first
      | exact ⟨hc, hr⟩
      | exact ⟨nodup_append_singleton hc (by assumption), hr⟩
  | opDisconnect g =>
    simp only [applyOp, disconnect]
    split_ifs
    all_goals first
      | exact ⟨hc, hr⟩
      | exact ⟨hc.erase g, hr⟩
  | opReplayBegin g =>
    simp only [applyOp, replay_begin]
    split_ifs
    all_goals first
      | exact ⟨hc, hr⟩
      | exact ⟨hc, nodup_append_singleton hr (by assumption)⟩
  | opReplayFinish g f =>
    cases f with
    | none => exact ⟨hc, hr.erase g⟩
    | some c => exact ⟨hc, hr.erase g⟩
  | opRecordBegin g =>
    simp only [applyOp, record_start_begin]
    split_ifs
    all_goals first
      | exact ⟨hc, hr⟩
      | exact ⟨hc, nodup_append_singleton hr (by assumption)⟩
  | opRecordFinish g f =>
    cases f with
    | none => exact ⟨hc, hr.erase g⟩
    | some c => exact ⟨hc, hr.erase g⟩
  | opRecordStop g =>
    simp only [applyOp, record_stop]
    split_ifs
    all_goals exact ⟨hc, hr⟩

theorem foldl_applyOp_preserves_inv (ops : List Op) (s : CogState) (h : CogInv s) :
    CogInv (List.foldl applyOp s ops) := by
  induction ops generalizing s with
  | nil => exact h
  | cons op ops ih => exact ih _ (applyOp_preserves_inv s op h)

/-!
Claim theorems.
-/

/-- C1 counterexample: with guild 7 connected and no Recording active,
`record_stop` does not fail - it dispatches the stop event; its only error
exit (`errorNotConnected`) is not taken, and the handler has no
NoActiveRecording failure at all. This refutes "a stopRecording request
issued when no Recording is active fails with NoActiveRecording". -/
theorem record_stop_without_recording_does_not_fail :
    7 ∉ stateConn7.recording_guilds ∧
    record_stop stateConn7 7 = (stateConn7, .dispatchedStop) ∧
    (record_stop stateConn7 7).2 ≠ .errorNotConnected := by
  refine ⟨by decide, by decide, by decide⟩

/-- C1 amended: `record_stop` fails only with the not-connected error
(guild not in `connecting_guilds`), leaving the state unchanged; otherwise -
whether or not a Recording is active - it broadcasts the `record_stop`
event and returns, delivering no clip itself; when an active capture
resolves with a file, the clip is returned by the `record_start`
invocation's finish phase. -/
theorem record_stop_spec (s : CogState) (g : Nat) :
    (g ∉ s.connecting_guilds → record_stop s g = (s, .errorNotConnected)) ∧
    (g ∈ s.connecting_guilds → record_stop s g = (s, .dispatchedStop)) ∧
    (∀ c, (record_start_finish s g (some c)).2 = .clipDelivered c) := by
  refine ⟨fun h => ?_, fun h => ?_, fun c => rfl⟩
  · simp [record_stop, h]
  · simp [record_stop, h]

/-- C1 witness: `record_stop_spec` instantiated at connected guild 7. -/
theorem record_stop_spec_witness :
    record_stop stateConn7 7 = (stateConn7, .dispatchedStop) ∧
    (record_start_finish stateConn7 7 (some [1, 2])).2 = .clipDelivered [1, 2] :=
  ⟨(record_stop_spec stateConn7 7).2.1 (by decide),
   (record_stop_spec stateConn7 7).2.2 [1, 2]⟩

/-- C2: with a Recording active on a connected session, a second
`record_start` and likewise a `replay_audio` are rejected with the
recording-in-progress error and leave the whole cog state - in particular
the recording registration - unchanged. -/
theorem second_recording_request_rejected (s : CogState) (g : Nat)
    (hc : g ∈ s.connecting_guilds) (hr : g ∈ s.recording_guilds) :
    record_start_begin s g = (s, .errorRecordingInProgress) ∧
    replay_begin s g = (s, .errorRecordingInProgress) := by
  constructor <;> simp [record_start_begin, replay_begin, hc, hr]

/-- C2 witness: instantiated at guild 7 connected and recording. -/
theorem second_recording_request_rejected_witness :
    record_start_begin stateConnRec7 7 = (stateConnRec7, .errorRecordingInProgress) ∧
    replay_begin stateConnRec7 7 = (stateConnRec7, .errorRecordingInProgress) :=
  second_recording_request_rejected stateConnRec7 7 (by decide) (by decide)

/-- C3 counterexample: starting from the freshly initialised state (guild 7
disconnected), the coordinator state at the moment the transport join is
attempted is exactly the entry state - guild 7 is registered nowhere, so
nothing transitions to a Connecting state before the join; the guild is
added to `connecting_guilds` only after the join succeeds, and not at all
when it fails. This refutes "it transitions to Connecting before attempting
the transport join". -/
theorem connect_has_no_connecting_phase :
    audioJoinAttemptState (AudioBase_init []) 7 = some (AudioBase_init []) ∧
    7 ∉ (AudioBase_init []).connecting_guilds ∧
    (audio (AudioBase_init []) 7 true).1.connecting_guilds = [7] ∧
    (audio (AudioBase_init []) 7 false).1 = AudioBase_init [] := by
  refine ⟨by decide, by decide, by decide, by decide⟩

/-- C3 amended: `connect` fails with the text-to-speech-conflict error when
that cog holds the guild's connection and with the already-connected error
when the guild is in `connecting_guilds`, in both cases leaving the state
untouched; otherwise it attempts the transport join (30 s timeout) with no
prior state change - there is no Connecting registration - and the guild
becomes connected exactly when the join succeeds. -/
theorem audio_connect_spec (s : CogState) (g : Nat) :
    (g ∈ s.ttsReadingGuilds → ∀ j, audio s g j = (s, .errorTTSConflict)) ∧
    (g ∉ s.ttsReadingGuilds → g ∈ s.connecting_guilds →
       ∀ j, audio s g j = (s, .errorAlreadyConnected)) ∧
    (g ∉ s.ttsReadingGuilds → g ∉ s.connecting_guilds →
       audioJoinAttemptState s g = some s ∧
       audio s g true =
         ({ s with connecting_guilds := s.connecting_guilds ++ [g] },
          .successConnected) ∧
       audio s g false = (s, .joinFailed)) ∧
    connectTimeoutSeconds = 30 := by
  refine ⟨fun h1 j => ?_, fun h1 h2 j => ?_, fun h1 h2 => ⟨?_, ?_, ?_⟩, rfl⟩
  · simp [audio, h1]
  · simp [audio, h1, h2]
  · simp [audioJoinAttemptState, h1, h2]
  · simp [audio, h1, h2]
  · simp [audio, h1, h2]

/-- C3 witness: `audio_connect_spec` instantiated - a connect on connected
guild 7 is rejected with the state untouched, and a connect from the fresh
state registers the guild on join success. -/
theorem audio_connect_spec_witness :
    audio stateConn7 7 true = (stateConn7, .errorAlreadyConnected) ∧
    audio (AudioBase_init []) 7 true =
      ({ AudioBase_init [] with connecting_guilds := [] ++ [7] },
       .successConnected) :=
  ⟨(audio_connect_spec stateConn7 7).2.1 (by decide) (by decide) true,
   ((audio_connect_spec (AudioBase_init []) 7).2.2.1 (by decide) (by decide)).2.1⟩

/-- C4: for every source kind handled by `play_audio_file` (direct
attachment, message attachment, stored tag; with the PlaybackSource
constructor `create_source` modelled from spec section 4.1 because
`lib/audio.py` is not under `src/`): a resolved source with an unsupported
extension ends in an UnsupportedFormat failure, a resolved source whose
byte length exceeds the 25 MB ceiling ends in a SizeLimitExceeded failure
(the attachment paths surface these as the handler's own extension/size
errors before the engine is reached), and a played outcome implies the
source had a supported extension and resolved bytes within the ceiling. -/
theorem play_source_constraints (s : CogState) (g : Nat) (req : PlayRequest)
    (tagFetch : Option Nat) (vcp : Bool) :
    (∀ file, resolvePlayFile req = .ok file →
       isSupportedExtension (PlayFile.filename file) = false →
       g ∈ s.connecting_guilds →
       (play_audio_file s g req tagFetch vcp).isUnsupportedFormat = true) ∧
    (resolvePlayFile req = .error .errorBadExtension →
       g ∈ s.connecting_guilds →
       (play_audio_file s g req tagFetch vcp).isUnsupportedFormat = true) ∧
    (∀ file n, resolvePlayFile req = .ok file →
       isSupportedExtension (PlayFile.filename file) = true →
       PlayFile.resolvedBytes file tagFetch = some n → FILESIZE_LIMIT < n →
       g ∈ s.connecting_guilds →
       (play_audio_file s g req tagFetch vcp).isSizeLimitExceeded = true) ∧
    (resolvePlayFile req = .error .errorSizeLimit →
       g ∈ s.connecting_guilds →
       (play_audio_file s g req tagFetch vcp).isSizeLimitExceeded = true) ∧
    (∀ fn, play_audio_file s g req tagFetch vcp = .played fn →
       ∃ file, resolvePlayFile req = .ok file ∧ fn = PlayFile.filename file ∧
         isSupportedExtension fn = true ∧
         ∃ n, PlayFile.resolvedBytes file tagFetch = some n ∧
           n ≤ FILESIZE_LIMIT) := by
  refine ⟨fun file hres hext hmem => ?_, fun hres hmem => ?_,
    fun file n hres hext hbytes hlim hmem => ?_, fun hres hmem => ?_,
    fun fn hplay => ?_⟩
  · have hcs : create_source file.filename (file.resolvedBytes tagFetch) =
        .error .unsupportedFormat := by
      simp [create_source, hext]
    simp [play_audio_file, hmem, hres, hcs, PlayOutcome.isUnsupportedFormat]
  · simp [play_audio_file, hmem, hres, PlayOutcome.isUnsupportedFormat]
  · have hcs : create_source file.filename (file.resolvedBytes tagFetch) =
        .error .sizeLimitExceeded := by
      simp [create_source, hext, hbytes, hlim]
    simp [play_audio_file, hmem, hres, hcs, PlayOutcome.isSizeLimitExceeded]
  · simp [play_audio_file, hmem, hres, PlayOutcome.isSizeLimitExceeded]
  · by_cases hmem : g ∉ s.connecting_guilds
    · unfold play_audio_file at hplay
      rw [if_pos hmem] at hplay
      cases hplay
    · unfold play_audio_file at hplay
      rw [if_neg hmem] at hplay
      cases hres : resolvePlayFile req with
      | error e =>
        simp only [hres] at hplay
        rcases resolvePlayFile_error_cases req e hres with h | h | h | h | h <;>
          (subst h; cases hplay)
      | ok file =>
        simp only [hres] at hplay
        cases hcs : create_source file.filename (file.resolvedBytes tagFetch) with
        | error e2 =>
          simp only [hcs] at hplay
          cases hplay
        | ok v =>
          simp only [hcs] at hplay
          cases vcp with
          | false => simp at hplay
          | true =>
            simp only [if_true] at hplay
            injection hplay with h
            obtain ⟨hsup, hv, n, hb, hle⟩ := create_source_ok_inv _ _ _ hcs
            exact ⟨file, rfl, h.symm, h ▸ hsup, n, hb, hle⟩

/-- C4 witness: `play_source_constraints` instantiated - playing the
stored `.ogg` tag on connected guild 7 ends in an UnsupportedFormat
failure, and a played outcome for the small mp3 attachment satisfies both
constraints. -/
theorem play_source_constraints_witness :
    (play_audio_file stateConn7 7 oggTagRequest (some 5) true).isUnsupportedFormat
      = true ∧
    (∃ file, resolvePlayFile mp3Request = .ok file ∧
       "song.mp3".toList = PlayFile.filename file ∧
       isSupportedExtension "song.mp3".toList = true ∧
       ∃ n, PlayFile.resolvedBytes file none = some n ∧ n ≤ FILESIZE_LIMIT) :=
  ⟨(play_source_constraints stateConn7 7 oggTagRequest (some 5) true).1
     (.fromTag ⟨oggTag⟩) rfl (by decide) (by decide),
   (play_source_constraints stateConn7 7 mp3Request none true).2.2.2.2
     "song.mp3".toList (by decide)⟩

/-- C5: on a connected session with no recording, `record_start` registers
a Recording; a `disconnect` issued while that capture is pending removes
the guild's session, the pending `record()` call resolves with no file
(cancellation modelled from the spec), and the finish phase of
`record_start` then reports failure, delivers no clip, and clears the
recording registration. -/
theorem disconnect_cancels_inflight_recording (s : CogState) (g : Nat)
    (hc : g ∈ s.connecting_guilds) (hr : g ∉ s.recording_guilds)
    (hnd : s.connecting_guilds.Nodup) :
    (record_start_begin s g).2 = .started ∧
    g ∈ (record_start_begin s g).1.recording_guilds ∧
    (disconnect (record_start_begin s g).1 g).2.2 = .successDisconnected ∧
    (record_start_finish (disconnect (record_start_begin s g).1 g).1 g
        recordResultAfterDisconnect).2 = .errorRecordFailed ∧
    (∀ c, (record_start_finish (disconnect (record_start_begin s g).1 g).1 g
        recordResultAfterDisconnect).2 ≠ .clipDelivered c) ∧
    g ∉ (record_start_finish (disconnect (record_start_begin s g).1 g).1 g
        recordResultAfterDisconnect).1.connecting_guilds ∧
    (record_start_finish (disconnect (record_start_begin s g).1 g).1 g
        recordResultAfterDisconnect).1.recording_guilds = s.recording_guilds := by
  have hbegin : record_start_begin s g =
      ({ s with recording_guilds := s.recording_guilds ++ [g] }, .started) := by
    simp [record_start_begin, hc, hr]
  have hdisc : disconnect (record_start_begin s g).1 g =
      ({ s with connecting_guilds := s.connecting_guilds.erase g,
                recording_guilds := s.recording_guilds ++ [g] },
       [.stopPlayback, .forceDisconnect], .successDisconnected) := by
    rw [hbegin]
    simp [disconnect, hc]
  refine ⟨by rw [hbegin], ?_, by rw [hdisc], by rw [hdisc]; rfl, ?_, ?_, ?_⟩
  · rw [hbegin]
    simp
  · intro c
    rw [hdisc]
    simp [record_start_finish, recordResultAfterDisconnect]
  · rw [hdisc]
    exact hnd.not_mem_erase
  · rw [hdisc]
    show (s.recording_guilds ++ [g]).erase g = s.recording_guilds
    rw [List.erase_append_right _ hr, List.erase_cons_head, List.append_nil]

/-- C5 witness: the cancellation scenario instantiated at guild 7. -/
theorem disconnect_cancels_inflight_recording_witness :
    (record_start_finish (disconnect (record_start_begin stateConn7 7).1 7).1 7
        recordResultAfterDisconnect).2 = .errorRecordFailed ∧
    7 ∉ (record_start_finish (disconnect (record_start_begin stateConn7 7).1 7).1 7
        recordResultAfterDisconnect).1.connecting_guilds ∧
    (record_start_finish (disconnect (record_start_begin stateConn7 7).1 7).1 7
        recordResultAfterDisconnect).1.recording_guilds
      = stateConn7.recording_guilds :=
  ⟨(disconnect_cancels_inflight_recording stateConn7 7 (by decide) (by decide)
      (by decide)).2.2.2.1,
   (disconnect_cancels_inflight_recording stateConn7 7 (by decide) (by decide)
      (by decide)).2.2.2.2.2.1,
   (disconnect_cancels_inflight_recording stateConn7 7 (by decide) (by decide)
      (by decide)).2.2.2.2.2.2⟩

/-- C6: `disconnect` fails with the not-connected error when the guild is
not connected, changing nothing and issuing no transport call; otherwise it
stops any in-flight playback, forces the transport teardown, removes the
guild's session registration (the guild is no longer connected), and
leaves the recording registry as is. -/
theorem disconnect_spec (s : CogState) (g : Nat)
    (hnd : s.connecting_guilds.Nodup) :
    (g ∉ s.connecting_guilds → disconnect s g = (s, [], .errorNotConnected)) ∧
    (g ∈ s.connecting_guilds →
       (disconnect s g).2.1 = [.stopPlayback, .forceDisconnect] ∧
       (disconnect s g).2.2 = .successDisconnected ∧
       (disconnect s g).1.connecting_guilds = s.connecting_guilds.erase g ∧
       g ∉ (disconnect s g).1.connecting_guilds ∧
       (disconnect s g).1.recording_guilds = s.recording_guilds) := by
  constructor
  · intro h
    simp [disconnect, h]
  · intro h
    have hd : disconnect s g =
        ({ s with connecting_guilds := s.connecting_guilds.erase g },
         [.stopPlayback, .forceDisconnect], .successDisconnected) := by
      simp [disconnect, h]
    rw [hd]
    exact ⟨rfl, rfl, rfl, hnd.not_mem_erase, rfl⟩

/-- C6 witness: `disconnect_spec` instantiated - the error branch on the
fresh state and the teardown branch on connected guild 7. -/
theorem disconnect_spec_witness :
    disconnect (AudioBase_init []) 7 = (AudioBase_init [], [], .errorNotConnected) ∧
    (disconnect stateConn7 7).2.2 = .successDisconnected :=
  ⟨(disconnect_spec (AudioBase_init []) 7 (by decide)).1 (by decide),
   ((disconnect_spec stateConn7 7 (by decide)).2 (by decide)).2.1⟩

/-- C7: `locks` is a `defaultdict`, so each guild has exactly one playback
lock - looking a guild up again returns the same lock id; and under the
`async with` discipline of that lock, from any all-waiting collection of
play invocations, every reachable interleaving keeps two distinct
same-guild invocations out of their playback sections simultaneously (a
blocked acquisition stays `waitingLock`; the step relation has no error
transition). -/
theorem per_guild_lock_serializes_playback :
    (∀ (table : List (Nat × Nat)) (counter g : Nat),
       (getLock (getLock table counter g).1 (getLock table counter g).2.1 g).2.2 =
         (getLock table counter g).2.2) ∧
    (∀ init ts : List PlayTask, (∀ t ∈ init, t.phase = .waitingLock) →
       PlayReachable init ts → PlayMutex ts) := by
  constructor
  · intro table counter g
    cases hf : table.find? (fun p => p.1 == g) with
    | some p => simp [getLock, hf]
    | none =>
      have h2 : (table ++ [(g, counter)]).find? (fun p => p.1 == g) =
          some (g, counter) := by
        rw [find?_append_of_none _ _ _ hf]
        simp [List.find?]
      simp [getLock, hf, h2]
  · intro init ts hinit hr
    have hr2 : Relation.ReflTransGen PlayStep init ts := hr
    clear hr
    induction hr2 with
    | refl =>
      intro a b ha hb hne hg hcon
      obtain ⟨hpa, -⟩ := hcon
      rw [hinit _ (List.get_mem init a ha)] at hpa
      cases hpa
    | tail hab hbc ih => exact playStep_preserves_mutex hbc ih

/-- C7 witness: `per_guild_lock_serializes_playback` instantiated - the
second lookup of guild 7's lock returns the first lookup's lock, and after
one of two guild-7 play invocations acquires the lock they are not both in
their playback sections. -/
theorem per_guild_lock_witness :
    (getLock (getLock [] 0 7).1 (getLock [] 0 7).2.1 7).2.2
      = (getLock [] 0 7).2.2 ∧
    ¬((oneAcquired7.get ⟨0, by decide⟩).phase = .playing ∧
      (oneAcquired7.get ⟨1, by decide⟩).phase = .playing) :=
  ⟨per_guild_lock_serializes_playback.1 [] 0 7,
   per_guild_lock_serializes_playback.2 twoWaiting7 oneAcquired7 (by decide)
     oneAcquired7_reachable 0 1 (by decide) (by decide) (by decide) (by decide)⟩

/-- C8: after any sequence of connect / disconnect / replay / record
operations from the initial state, every guild id occurs at most once in
`connecting_guilds` and at most once in `recording_guilds`. -/
theorem at_most_one_session_and_recording_per_guild
    (tts : List Nat) (ops : List Op) (g : Nat) :
    (List.foldl applyOp (AudioBase_init tts) ops).connecting_guilds.count g ≤ 1 ∧
    (List.foldl applyOp (AudioBase_init tts) ops).recording_guilds.count g ≤ 1 := by
  have h := foldl_applyOp_preserves_inv ops (AudioBase_init tts)
    ⟨List.nodup_nil, List.nodup_nil⟩
  exact ⟨List.nodup_iff_count_le_one.mp h.1 g,
    List.nodup_iff_count_le_one.mp h.2 g⟩

/-- C9 counterexample: guild 7 connected, a valid small mp3 attachment, but
the voice client is gone by the time the playback lock is acquired: the
handler takes the bare `return` of lines 147-148 - the outcome is neither a
playback nor a surfaced failure. This refutes "no operation ever returns
without either a success payload or a named failure". -/
theorem dispatchPlay_can_return_silently :
    play_audio_file stateConn7 7 mp3Request none false = .silentReturn ∧
    PlayOutcome.silentReturn.isFailureSurfaced = false ∧
    PlayOutcome.silentReturn.isSuccess = false := by
  refine ⟨by decide, rfl, rfl⟩

/-- C9 amended: every exit of `play_audio_file` other than the bare return
taken when the voice client has vanished at lock time is typed, so whenever
the voice client is still present the command ends in either a playback or
a surfaced named failure; the other coordinator operations return typed
outcomes on every path by construction. -/
theorem dispatchPlay_surfaces_result_when_voice_client_present
    (s : CogState) (g : Nat) (req : PlayRequest) (tagFetch : Option Nat) :
    (play_audio_file s g req tagFetch true).isSuccess = true ∨
    (play_audio_file s g req tagFetch true).isFailureSurfaced = true :=
  playOutcome_classify _ (play_ne_silent_of_vcp s g req tagFetch)

/-- C10: `record_stop` never mutates the cog state - the connected-guild
registry, the recording registry and the lock table are all returned
unchanged - and in the connected case it only broadcasts the stop event;
moreover, across all coordinator operations, the only ones that remove a
guild's entry from `recording_guilds` are the finish phases of
`record_start` / `replay_audio` for that same guild. -/
theorem record_stop_frame_effect (s : CogState) (g : Nat) :
    (record_stop s g).1 = s ∧
    (g ∈ s.connecting_guilds → (record_stop s g).2 = .dispatchedStop) ∧
    (∀ (op : Op) (h : Nat), h ∈ s.recording_guilds →
       h ∉ (applyOp s op).recording_guilds →
       (∃ f, op = .opRecordFinish h f) ∨ (∃ f, op = .opReplayFinish h f)) := by
  refine ⟨?_, fun hmem => ?_, fun op h hmem hnot => ?_⟩
  · unfold record_stop
    split_ifs <;> rfl
  · simp [record_stop, hmem]
  · cases op with
    | opConnect g2 j =>
      exfalso
      apply hnot
      have hx := (recording_unchanged_by_other_ops s g2 j).1
      simpa only [applyOp, hx] using hmem
    | opDisconnect g2 =>
      exfalso
      apply hnot
      have hx := (recording_unchanged_by_other_ops s g2 true).2.1
      simpa only [applyOp, hx] using hmem
    | opRecordStop g2 =>
      exfalso
      apply hnot
      have hx := (recording_unchanged_by_other_ops s g2 true).2.2
      simpa only [applyOp, hx] using hmem
    | opReplayBegin g2 =>
      exfalso
      apply hnot
      have hx := (recording_mem_after_begin s g2 h hmem).1
      simpa only [applyOp] using hx
    | opRecordBegin g2 =>
      exfalso
      apply hnot
      have hx := (recording_mem_after_begin s g2 h hmem).2
      simpa only [applyOp] using hx
    | opReplayFinish g2 f =>
      by_cases hgh : h = g2
      · subst hgh
        exact .inr ⟨f, rfl⟩
      · exfalso
        apply hnot
        have herase := (finish_recording_erase s g2 f).1
        simp only [applyOp, herase]
        exact (List.mem_erase_of_ne hgh).mpr hmem
    | opRecordFinish g2 f =>
      by_cases hgh : h = g2
      · subst hgh
        exact .inl ⟨f, rfl⟩
      · exfalso
        apply hnot
        have herase := (finish_recording_erase s g2 f).2
        simp only [applyOp, herase]
        exact (List.mem_erase_of_ne hgh).mpr hmem

/-- C10 witness: `record_stop_frame_effect` instantiated at guild 7
connected and recording, with the clearing operation the record finish
phase. -/
theorem record_stop_frame_effect_witness :
    (record_stop stateConnRec7 7).1 = stateConnRec7 ∧
    ((∃ f, Op.opRecordFinish 7 none = Op.opRecordFinish 7 f) ∨
     (∃ f, Op.opRecordFinish 7 none = Op.opReplayFinish 7 f)) :=
  ⟨(record_stop_frame_effect stateConnRec7 7).1,
   (record_stop_frame_effect stateConnRec7 7).2.2 (Op.opRecordFinish 7 none) 7
     (by decide) (by decide)⟩


end MiniMaid
